import Mathlib

/-!
Verification development for the cdk-api-stepfunction repository.

The repository consists of three CDK stack variants plus four small Lambda
handlers:

* a benchmark stack (first document of lib/cdk-api-stepfunction-stack.ts)
  whose state machine is a single Parallel with a LambdaInvoke branch and a
  DynamoDB getItem SDK-integration branch;
* an API-gateway stack (second document of the same file) whose state machine
  routes by nested Choice states on fields of the execution input, reads from
  DynamoDB via a getItem service integration and logs every outcome to a
  custom EventBridge bus via putEvents service integrations;
* a put-benchmark stack (a further stack document) whose machine does a
  Lambda put followed by an SDK putItem;
* Lambda handlers that each issue a single DynamoDB DocumentClient call.

The CDK code is declarative: running a stack constructor only builds a tree
of state definitions and resource declarations.  The shallow embedding below
therefore renders each stack as explicit Lean data (the Amazon States
Language state tree, the declared resources, the state machine properties),
and supplies a small interpreter for the fragment of the States Language the
definitions use (JSONPath presence and string-equality conditions, choice
resolution, and the DynamoDB table effect of each state kind).
-/

namespace CdkApiStepfunction

/-- JSON-like documents, the execution input model of a state machine. -/
inductive J where
  | null : J
  | str : String → J
  | obj : List (String × J) → J

/-- Field lookup in a JSON object body. -/
def lookupField : List (String × J) → String → Option J
  | [], _ => none
  | (k, v) :: rest, key => if k = key then some v else lookupField rest key

/-- JSONPath evaluation: a path written $.a.b in the source is embedded as
the segment list a, b relative to the document root. -/
def getPath : J → List String → Option J
  | j, [] => some j
  | J.obj fields, k :: ks =>
      match lookupField fields k with
      | some v => getPath v ks
      | none => none
  | J.null, _ :: _ => none
  | J.str _, _ :: _ => none

/-- A NodejsFunction declaration: construct id, entry file, handler, memory,
X-Ray tracing flag, timeout in seconds and the DYNAMODB_TABLE environment
value wired from the stack's table. -/
structure LambdaFn where
  name : String
  entry : String
  handlerName : String
  memorySize : Nat
  tracingActive : Bool
  timeoutSeconds : Nat
  envDynamoTable : String
deriving DecidableEq

/-- One entry of an events:putEvents task, as written in the stack's
putEventBridgeRecord helper. -/
structure EventEntry where
  eventBusName : String
  detailEvent : String
  detailType : String
  source : String
deriving DecidableEq

/-- A DynamoDB key attribute value: a literal string or a JsonPath.stringAt
reference into the execution input. -/
inductive KeyVal where
  | lit : String → KeyVal
  | jsonPath : List String → KeyVal
deriving DecidableEq

/-- Parameters of the service-integration Task states the stacks use. -/
inductive TaskParams where
  | ddbGetItem : String → List (String × KeyVal) → TaskParams
  | ddbPutItem : String → List (String × String) → TaskParams
  | putEvents : List EventEntry → TaskParams
deriving DecidableEq

/-- Choice conditions appearing in the stacks: Condition.isPresent and
Condition.stringEquals on a JSONPath. -/
inductive Cond where
  | isPresent : List String → Cond
  | stringEquals : List String → String → Cond
deriving DecidableEq

/-- The Amazon States Language state tree built by the stack constructors.
A state's chain successor (the CDK .next call) is the last argument; done
marks the end of a chain.  choice1 and choice2 embed Choice states with one
and two when-rules followed by an otherwise branch, matching the source's
fluent .when/.otherwise call chains.  parallel2 embeds a Parallel with two
.branch calls. -/
inductive SfState where
  | done : SfState
  | pass : String → List (String × String) → Option String → Option String →
      Option String → SfState → SfState
  | task : String → String → TaskParams → Option String → SfState → SfState
  | lambdaInvoke : String → LambdaFn → Option String → Option String → SfState → SfState
  | choice1 : String → Cond → SfState → SfState → SfState
  | choice2 : String → Cond → SfState → Cond → SfState → SfState → SfState
  | parallel2 : String → SfState → SfState → SfState → SfState
deriving DecidableEq

/-- Condition evaluation against an execution input, the States Language
semantics of isPresent and StringEquals. -/
def evalCond (input : J) : Cond → Bool
  | Cond.isPresent p => (getPath input p).isSome
  | Cond.stringEquals p v =>
      match getPath input p with
      | some (J.str s) => s = v
      | _ => false

/-- Resolution of the leading Choice states of a definition against an
execution input: the first non-Choice state the execution reaches.  Choice
rules are tried in order and the otherwise branch is taken when no rule
matches, per the States Language. -/
def resolveChoices (input : J) : SfState → SfState
  | SfState.choice1 _ c t e =>
      if evalCond input c then resolveChoices input t else resolveChoices input e
  | SfState.choice2 _ c1 t1 c2 t2 e =>
      if evalCond input c1 then resolveChoices input t1
      else if evalCond input c2 then resolveChoices input t2
      else resolveChoices input e
  | SfState.done => SfState.done
  | SfState.pass n p ip op rp nx => SfState.pass n p ip op rp nx
  | SfState.task n r tp rp nx => SfState.task n r tp rp nx
  | SfState.lambdaInvoke n f rp op nx => SfState.lambdaInvoke n f rp op nx
  | SfState.parallel2 n b1 b2 nx => SfState.parallel2 n b1 b2 nx

/-- Check that a Boolean state predicate holds at every state of a
definition tree (the terminal done marker excepted). -/
def statesOk (p : SfState → Bool) : SfState → Bool
  | SfState.done => true
  | SfState.pass n pr ip op rp nx =>
      p (SfState.pass n pr ip op rp nx) && statesOk p nx
  | SfState.task n r tp rp nx =>
      p (SfState.task n r tp rp nx) && statesOk p nx
  | SfState.lambdaInvoke n f rp op nx =>
      p (SfState.lambdaInvoke n f rp op nx) && statesOk p nx
  | SfState.choice1 n c t e =>
      p (SfState.choice1 n c t e) && statesOk p t && statesOk p e
  | SfState.choice2 n c1 t1 c2 t2 e =>
      p (SfState.choice2 n c1 t1 c2 t2 e) && statesOk p t1 && statesOk p t2 &&
        statesOk p e
  | SfState.parallel2 n b1 b2 nx =>
      p (SfState.parallel2 n b1 b2 nx) && statesOk p b1 && statesOk p b2 &&
        statesOk p nx

/-- A DynamoDB item, as a flat attribute list. -/
abbrev Item : Type := List (String × String)

/-- DynamoDB table contents. -/
abbrev DdbTable : Type := List Item

/-- Table effect of one service-integration task: getItem and putEvents
leave the table unchanged, putItem stores its item. -/
def applyTask (tp : TaskParams) (tbl : DdbTable) : DdbTable :=
  match tp with
  | TaskParams.ddbGetItem _ _ => tbl
  | TaskParams.ddbPutItem _ item => item :: tbl
  | TaskParams.putEvents _ => tbl

/-- Table effect of executing a definition.  Choice outcomes are drawn from
an arbitrary oracle pick (indexing the matched rule by state name) and
Lambda invocations from an arbitrary table transformer, so a statement
quantified over both covers every data-dependent execution. -/
def runTable (lamEff : LambdaFn → DdbTable → DdbTable) (pick : String → Nat) :
    SfState → DdbTable → DdbTable
  | SfState.done, tbl => tbl
  | SfState.pass _ _ _ _ _ nx, tbl => runTable lamEff pick nx tbl
  | SfState.task _ _ tp _ nx, tbl => runTable lamEff pick nx (applyTask tp tbl)
  | SfState.lambdaInvoke _ f _ _ nx, tbl => runTable lamEff pick nx (lamEff f tbl)
  | SfState.choice1 nm _ t e, tbl =>
      if pick nm = 0 then runTable lamEff pick t tbl else runTable lamEff pick e tbl
  | SfState.choice2 nm _ t1 _ t2 e, tbl =>
      if pick nm = 0 then runTable lamEff pick t1 tbl
      else if pick nm = 1 then runTable lamEff pick t2 tbl
      else runTable lamEff pick e tbl
  | SfState.parallel2 _ b1 b2 nx, tbl =>
      runTable lamEff pick nx (runTable lamEff pick b2 (runTable lamEff pick b1 tbl))

/-- States that cannot modify the DynamoDB table: everything except a
putItem task and a Lambda invocation (a Lambda body could write). -/
def tableSafe : SfState → Bool
  | SfState.task _ _ (TaskParams.ddbPutItem _ _) _ _ => false
  | SfState.lambdaInvoke _ _ _ _ _ => false
  | _ => true

/-- A definition all of whose states are tableSafe leaves the table
unchanged on every execution. -/
theorem runTable_eq_of_tableSafe (lamEff : LambdaFn → DdbTable → DdbTable)
    (pick : String → Nat) (s : SfState) (h : statesOk tableSafe s = true)
    (tbl : DdbTable) : runTable lamEff pick s tbl = tbl := by
  induction s generalizing tbl with
  | done => rfl
  | pass n pr ip op rp nx ih =>
      simp only [statesOk, Bool.and_eq_true] at h
      simp only [runTable]
      exact ih h.2 tbl
  | task n r tp rp nx ih =>
      simp only [statesOk, Bool.and_eq_true] at h
      have htp : applyTask tp tbl = tbl := by
        cases tp with
        | ddbGetItem a b => rfl
        | ddbPutItem a b => simp [tableSafe] at h
        | putEvents a => rfl
      simp only [runTable, htp]
      exact ih h.2 tbl
  | lambdaInvoke n f rp op nx ih =>
      simp [statesOk, tableSafe] at h
  | choice1 n c t e iht ihe =>
      simp only [statesOk, Bool.and_eq_true] at h
      simp only [runTable]
      by_cases hp : pick n = 0
      · simp only [hp, if_pos rfl]
        exact iht h.1.2 tbl
      · rw [if_neg hp]
        exact ihe h.2 tbl
  | choice2 n c1 t1 c2 t2 e ih1 ih2 ihe =>
      simp only [statesOk, Bool.and_eq_true] at h
      simp only [runTable]
      by_cases hp : pick n = 0
      · simp only [hp, if_pos rfl]
        exact ih1 h.1.1.2 tbl
      · rw [if_neg hp]
        by_cases hq : pick n = 1
        · rw [if_pos hq]
          exact ih2 h.1.2 tbl
        · rw [if_neg hq]
          exact ihe h.2 tbl
  | parallel2 n b1 b2 nx ih1 ih2 ihn =>
      simp only [statesOk, Bool.and_eq_true] at h
      simp only [runTable]
      rw [ih1 h.1.1.2, ih2 h.1.2, ihn h.2]

/-- Kinds of AWS resources the stack constructors declare. -/
inductive ResourceKind where
  | dynamoTable : ResourceKind
  | lambdaFunction : ResourceKind
  | stateMachine : ResourceKind
  | eventBus : ResourceKind
  | eventRule : ResourceKind
  | logGroup : ResourceKind
  | s3Bucket : ResourceKind
  | restApi : ResourceKind
deriving DecidableEq

/-- IAM grants issued by the stacks. -/
inductive Grant where
  | readData : Grant
  | readWriteData : Grant
  | putEventsTo : Grant
  | logWrite : Grant
deriving DecidableEq

/-- Step Functions state machine type. -/
inductive SmType where
  | express : SmType
  | standard : SmType
deriving DecidableEq

/-- Step Functions log level. -/
inductive SmLogLevel where
  | all : SmLogLevel
  | errorLevel : SmLogLevel
  | fatal : SmLogLevel
  | off : SmLogLevel
deriving DecidableEq

/-- Properties of a StateMachine declaration as written in the stacks. -/
structure StateMachineProps where
  smType : SmType
  tracingEnabled : Bool
  timeoutMinutes : Nat
  logLevel : SmLogLevel
  logDestination : String
  definition : SfState
deriving DecidableEq

/-! The benchmark stack: first document of lib/cdk-api-stepfunction-stack.ts.
Its table name is a deploy-time token, so the definitions take it as a
parameter t. -/

namespace Bench

/-- The DdbGetFunction NodejsFunction declaration (entry src/lambda/index.ts,
512MB, active tracing, 5s timeout, DYNAMODB_TABLE set to the table name). -/
def ddbGetLambda (t : String) : LambdaFn :=
  ⟨"DdbGetFunction", "src/lambda/index.ts", "handler", 512, true, 5, t⟩

/-- The lamdbdaGetToDDB LambdaInvoke step, resultPath $.lambdaGet. -/
def lambdaGetDdbRecord (t : String) : SfState :=
  SfState.lambdaInvoke "lamdbdaGetToDDB" (ddbGetLambda t) (some "$.lambdaGet")
    none SfState.done

/-- The sdkGetToDDB CustomState: a dynamodb:getItem task with static key
id=sdkGet, name=sdkGet and ResultPath $.sdkGet. -/
def sdkGetDdbRecord (t : String) : SfState :=
  SfState.task "sdkGetToDDB" "arn:aws:states:::dynamodb:getItem"
    (TaskParams.ddbGetItem t [("id", KeyVal.lit "sdkGet"), ("name", KeyVal.lit "sdkGet")])
    (some "$.sdkGet") SfState.done

/-- The whole definition: a Parallel with the two branches added by the two
.branch calls, chained to nothing. -/
def sfDefinition (t : String) : SfState :=
  SfState.parallel2 "sfDefinition" (lambdaGetDdbRecord t) (sdkGetDdbRecord t)
    SfState.done

/-- Resources declared by the benchmark stack constructor. -/
def resources : List (String × ResourceKind) :=
  [("Table", ResourceKind.dynamoTable),
   ("DdbGetFunction", ResourceKind.lambdaFunction),
   ("SfLogGroup", ResourceKind.logGroup),
   ("StateMachine", ResourceKind.stateMachine)]

/-- The StateMachine declaration of the benchmark stack. -/
def stateMachineProps (t : String) : StateMachineProps :=
  ⟨SmType.express, true, 1, SmLogLevel.all, "SfLogGroup", sfDefinition t⟩

/-- DynamoDB grants issued to the benchmark state machine. -/
def tableGrantsToStateMachine : List Grant := [Grant.readWriteData]

end Bench

/-! The put-benchmark stack: the further stack document (a Lambda put chained
to an SDK putItem). -/

namespace PutStack

/-- The DdbPutFunction NodejsFunction declaration. -/
def ddbPutLambda (t : String) : LambdaFn :=
  ⟨"DdbPutFunction", "src/lambda/index.ts", "handler", 512, true, 5, t⟩

/-- The sdkPutToDDB CustomState: a dynamodb:putItem task with static item
id=sfPut, name=sfPut and ResultPath $.Payload. -/
def sdkPutToDDB (t : String) : SfState :=
  SfState.task "sdkPutToDDB" "arn:aws:states:::dynamodb:putItem"
    (TaskParams.ddbPutItem t [("id", "sfPut"), ("name", "sfPut")])
    (some "$.Payload") SfState.done

/-- The lamdbdaPutToDDB LambdaInvoke step (outputPath $.Payload) chained by
.next to the SDK put. -/
def lamdbdaPutToDDB (t : String) : SfState :=
  SfState.lambdaInvoke "lamdbdaPutToDDB" (ddbPutLambda t) none (some "$.Payload")
    (sdkPutToDDB t)

/-- The whole definition: the Lambda put followed by the SDK put. -/
def sfDefinition (t : String) : SfState := lamdbdaPutToDDB t

/-- Resources declared by the put-benchmark stack constructor. -/
def resources : List (String × ResourceKind) :=
  [("Table", ResourceKind.dynamoTable),
   ("DdbPutFunction", ResourceKind.lambdaFunction),
   ("SfLogGroup", ResourceKind.logGroup),
   ("StateMachine", ResourceKind.stateMachine)]

/-- The StateMachine declaration of the put-benchmark stack. -/
def stateMachineProps (t : String) : StateMachineProps :=
  ⟨SmType.express, true, 1, SmLogLevel.all, "SfLogGroup", sfDefinition t⟩

end PutStack

/-! The API-gateway stack: second document of lib/cdk-api-stepfunction-stack.ts.
Its table and event bus names are deploy-time tokens; they are embedded as
symbolic constants named after the construct ids. -/

namespace ApiStack

/-- Deploy-time name of the EventBus declared with construct id EventBridge. -/
def eventBusName : String := "EventBridge"

/-- Deploy-time name of the DynamoDB table declared with construct id Table. -/
def tableName : String := "Table"

/-- The putEventBridgeRecord helper: a single-entry events:putEvents task
whose entry carries the log string under the Detail event key, DetailType
eventDelivery and Source custom.eventbus, with ResultPath $. plus the log
string. -/
def putEventBridgeRecord (logstring : String) : SfState :=
  SfState.task logstring "arn:aws:states:::events:putEvents"
    (TaskParams.putEvents [⟨eventBusName, logstring, "eventDelivery", "custom.eventbus"⟩])
    (some ("$." ++ logstring)) SfState.done

/-- The Get Record from DynamoDB step: a dynamodb:getItem task keyed on
orderid taken from $.body.orderid, resultPath $.sdkget, chained to the given
successor by the .next call at its use site. -/
def sdkGetDdbRecord (next : SfState) : SfState :=
  SfState.task "Get Record from DynamoDB" "arn:aws:states:::dynamodb:getItem"
    (TaskParams.ddbGetItem tableName [("orderid", KeyVal.jsonPath ["body", "orderid"])])
    (some "$.sdkget") next

/-- The found branch of the record check. -/
def orderFoundPass : SfState :=
  SfState.pass "PASS - Order ID found in DynamoDB"
    [("$.sdkPut.Item", "$.sdkPut.Item")]
    (some "$.sdkget.Item") none (some "$.recordFound")
    (putEventBridgeRecord "LOG - Order ID found in DynamoDB")

/-- The not-found branch of the record check. -/
def orderNotFoundPass : SfState :=
  SfState.pass "OrderID field not found in dynamodb"
    [("error", "OrderID field not found in dynamodb"), ("request.$", "$")]
    none (some "$.error") (some "$.error")
    (putEventBridgeRecord "ERROR - OrderID not found in DynamoDB")

/-- The Check Order ID in DynamoDB choice on presence of $.sdkget.Item. -/
def checkDdbRecord : SfState :=
  SfState.choice1 "Check Order ID in DynamoDB" (Cond.isPresent ["sdkget", "Item"])
    orderFoundPass orderNotFoundPass

/-- The error branch taken when the method is get but $.body.orderid is
absent. -/
def noOrderIdPass : SfState :=
  SfState.pass "No OrderID field found in input"
    [("error", "No OrderID field found in input"), ("request.$", "$")]
    none (some "$.error") (some "$.error")
    (putEventBridgeRecord "ERROR - No OrderID field found in input")

/-- The branch taken when the method is put. -/
def putRequestPass : SfState :=
  SfState.pass "PUT request input received" [("method", "put")]
    none none (some "$.request")
    (putEventBridgeRecord "LOG - PUT request input received")

/-- The error branch taken for a present but unknown method value. -/
def unknownMethodPass : SfState :=
  SfState.pass "unknown method value found in input"
    [("error", "unknown method value found in input")]
    none (some "$.error") (some "$.error")
    (putEventBridgeRecord "ERROR - unknown method value in input")

/-- The error branch taken when $.body.method is absent. -/
def noMethodPass : SfState :=
  SfState.pass "no method field found in input"
    [("error", "no method field found in input")]
    none (some "$.error") (some "$.error")
    (putEventBridgeRecord "ERROR - no method field in input")

/-- The whole definition: choice on presence of $.body.method, then on its
value, then on presence of $.body.orderid, exactly as the nested
.when/.otherwise calls build it. -/
def sfDefinition : SfState :=
  SfState.choice1 "Check if method field exists" (Cond.isPresent ["body", "method"])
    (SfState.choice2 "Check value of method field"
      (Cond.stringEquals ["body", "method"] "get")
      (SfState.choice1 "Check if order id field is present"
        (Cond.isPresent ["body", "orderid"])
        (sdkGetDdbRecord checkDdbRecord)
        noOrderIdPass)
      (Cond.stringEquals ["body", "method"] "put")
      putRequestPass
      unknownMethodPass)
    noMethodPass

/-- Resources declared by the API-gateway stack constructor, in declaration
order: the table, the S3 bucket, the two log groups, the event bus, the
event rule, the state machine and the Step Functions REST API. -/
def resources : List (String × ResourceKind) :=
  [("Table", ResourceKind.dynamoTable),
   ("Bucket", ResourceKind.s3Bucket),
   ("DebugLogGroup", ResourceKind.logGroup),
   ("SfLogGroup", ResourceKind.logGroup),
   ("EventBridge", ResourceKind.eventBus),
   ("LogEventRule", ResourceKind.eventRule),
   ("Dynamo_StateMachine", ResourceKind.stateMachine),
   ("StepFunctionsRestApi", ResourceKind.restApi)]

/-- The Dynamo_StateMachine declaration of the API-gateway stack. -/
def stateMachineProps : StateMachineProps :=
  ⟨SmType.express, true, 1, SmLogLevel.all, "SfLogGroup", sfDefinition⟩

/-- DynamoDB grants issued to the API-gateway state machine: the single
grantReadData call. -/
def tableGrantsToStateMachine : List Grant := [Grant.readData]

end ApiStack

/-! Lambda handlers.  Each handler is embedded as a function of its event and
context arguments, the DYNAMODB_TABLE environment value, and an oracle
giving the DynamoDB outcome of each request; it returns the list of
DocumentClient requests it issues together with its returned value. -/

/-- A DynamoDB DocumentClient request. -/
inductive DdbRequest where
  | get : String → List (String × String) → DdbRequest
  | put : String → List (String × String) → DdbRequest
deriving DecidableEq

/-- Outcome of a DynamoDB call: a result record or an error. -/
inductive DdbOutcome where
  | ok : Item → DdbOutcome
  | err : String → DdbOutcome
deriving DecidableEq

/-- What a handler invocation yields to its caller: a DynamoDB result value,
an error returned as a value, a plain string, a raised (thrown) error, or
undefined. -/
inductive HandlerResult where
  | value : Item → HandlerResult
  | errValue : String → HandlerResult
  | message : String → HandlerResult
  | raised : String → HandlerResult
  | undef : HandlerResult
deriving DecidableEq

/-- The DynamoDB environment a handler runs against. -/
def DdbOracle : Type := DdbRequest → DdbOutcome

namespace XrayGetLambda

/-- Handler of src/src/lambda/index.ts: one DocumentClient get with key
id=lambdaGet on the DYNAMODB_TABLE table, through a callback plus an awaited
promise.  On success the callback has stored the data in output and the
handler returns it; on error the awaited promise rejects, so the error is
raised to the caller. -/
def handler (_event _context : J) (envTable : String) (ddb : DdbOracle) :
    List DdbRequest × HandlerResult :=
  let req := DdbRequest.get envTable [("id", "lambdaGet")]
  ([req],
    match ddb req with
    | DdbOutcome.ok d => HandlerResult.value d
    | DdbOutcome.err e => HandlerResult.raised e)

end XrayGetLambda

namespace PlainGetLambda

/-- The callback-style get handler (first handler of the unnamed source
part): one DocumentClient get with key id=lambdaGet, with only a callback
and no awaited promise.  The await on the request object does not wait for
the callback, so the handler returns the still-undefined output variable
regardless of the call's outcome. -/
def handler (_event _context : J) (envTable : String) (_ddb : DdbOracle) :
    List DdbRequest × HandlerResult :=
  ([DdbRequest.get envTable [("id", "lambdaGet")]], HandlerResult.undef)

end PlainGetLambda

namespace PutLambda

/-- The put handler: one DocumentClient put of the fixed item id=lambdaPut,
name=lambdaPut with an awaited promise, returning the call's result (the
promise rejection is raised on error). -/
def handler (_event _context : J) (envTable : String) (ddb : DdbOracle) :
    List DdbRequest × HandlerResult :=
  let req := DdbRequest.put envTable [("id", "lambdaPut"), ("name", "lambdaPut")]
  ([req],
    match ddb req with
    | DdbOutcome.ok d => HandlerResult.value d
    | DdbOutcome.err e => HandlerResult.raised e)

end PutLambda

namespace SafeGetLambda

/-- The X-Ray get handler with a try/catch (last unnamed source part): one
DocumentClient get with key id=lambdaGet; on success the result is returned
unchanged, and a rejection is caught and turned into the diagnostic string
Unable to read from DynamoDB followed by the error. -/
def handler (_event _context : J) (envTable : String) (ddb : DdbOracle) :
    List DdbRequest × HandlerResult :=
  let req := DdbRequest.get envTable [("id", "lambdaGet")]
  ([req],
    match ddb req with
    | DdbOutcome.ok d => HandlerResult.value d
    | DdbOutcome.err e => HandlerResult.message ("Unable to read from DynamoDB " ++ e))

end SafeGetLambda

/-! Claim-side definitions, written from the spec's words, to be compared
with the embeddings above. -/

/-- Modelled from the claim's words: the branch the top-level routing is
said to select for each execution input.  Absent method: the no-method error
branch; method get with orderid present: the getItem task followed by the
record check; method get without orderid: the no-OrderID error branch;
method put: the PUT pass branch; any other present method value (any
non-string value included): the unknown-method error branch. -/
def claimedRoute (j : J) : SfState :=
  match getPath j ["body", "method"] with
  | none => ApiStack.noMethodPass
  | some v =>
      match v with
      | J.str s =>
          if s = "get" then
            if (getPath j ["body", "orderid"]).isSome then
              ApiStack.sdkGetDdbRecord ApiStack.checkDdbRecord
            else ApiStack.noOrderIdPass
          else if s = "put" then ApiStack.putRequestPass
          else ApiStack.unknownMethodPass
      | _ => ApiStack.unknownMethodPass

/-- A state is an error-record Pass followed directly by a single-entry
putEvents task on the custom bus with DetailType eventDelivery and the given
detail string: the shape C2 ascribes to every error branch. -/
def errorRecordThenSingleEvent (detail : String) : SfState → Bool
  | SfState.pass _ params _ outputPath _
      (SfState.task _ res (TaskParams.putEvents entries) _ _) =>
      params.any (fun kv => kv.1 == "error") &&
      outputPath == some "$.error" &&
      res == "arn:aws:states:::events:putEvents" &&
      (match entries with
       | [en] =>
           en.eventBusName == ApiStack.eventBusName &&
           en.source == "custom.eventbus" &&
           en.detailType == "eventDelivery" &&
           en.detailEvent == detail
       | _ => false)
  | _ => false

/-- The resource kinds the spec sentence enumerates. -/
def claimedResourceKinds : List ResourceKind :=
  [ResourceKind.dynamoTable, ResourceKind.stateMachine, ResourceKind.lambdaFunction,
   ResourceKind.eventBus, ResourceKind.logGroup, ResourceKind.restApi]

/-- The claimed kinds extended by the two kinds the API-gateway stack also
declares: an S3 bucket and an EventBridge rule. -/
def amendedResourceKinds : List ResourceKind :=
  claimedResourceKinds ++ [ResourceKind.s3Bucket, ResourceKind.eventRule]

/-- Modelled from the claim's words: returning the DynamoDB call's own
result, the data on success and the error itself on failure. -/
def specCallResult : DdbOutcome → HandlerResult
  | DdbOutcome.ok d => HandlerResult.value d
  | DdbOutcome.err e => HandlerResult.errValue e

/-- Returning the data on success and raising the rejection on failure, the
behavior of the awaited-promise handlers. -/
def okOrRaise : DdbOutcome → HandlerResult
  | DdbOutcome.ok d => HandlerResult.value d
  | DdbOutcome.err e => HandlerResult.raised e

/-- The claimed result of the get handler with error handling: the data on
success, the diagnostic string on rejection. -/
def claimedSafeGetResult : DdbOutcome → HandlerResult
  | DdbOutcome.ok d => HandlerResult.value d
  | DdbOutcome.err e => HandlerResult.message ("Unable to read from DynamoDB " ++ e)

/-- States the API-gateway definition is claimed to consist of: Choice,
Pass, and service-integration tasks for DynamoDB getItem or EventBridge
putEvents (in particular no Succeed, Parallel or Lambda invocation). -/
def isDeclarativeServiceState : SfState → Bool
  | SfState.choice1 _ _ _ _ => true
  | SfState.choice2 _ _ _ _ _ _ => true
  | SfState.pass _ _ _ _ _ _ => true
  | SfState.task _ r _ _ _ =>
      r == "arn:aws:states:::dynamodb:getItem" || r == "arn:aws:states:::events:putEvents"
  | _ => false

/-- Properties C7 ascribes to every state machine: Express type, tracing
enabled, one-minute timeout, log level ALL. -/
def smOk (m : StateMachineProps) : Bool :=
  (match m.smType with | SmType.express => true | SmType.standard => false) &&
  m.tracingEnabled && m.timeoutMinutes == 1 &&
  (match m.logLevel with | SmLogLevel.all => true | _ => false)

/-- A sample execution input whose body carries method put. -/
def samplePutInput : J :=
  J.obj [("body", J.obj [("method", J.str "put")])]

/-- C1: for every execution input, the top-level routing of the API-gateway
state machine resolves its nested Choice states exactly as the claim's case
table says: absent method to the no-method error branch, method get with
orderid present to the getItem task chained to the record check, method get
without orderid to the no-OrderID error branch, method put to the PUT pass
branch, and any other present method value to the unknown-method error
branch.  Since both sides are total functions of the input, exactly one
branch is selected per input. -/
theorem c1_api_routing (j : J) :
    resolveChoices j ApiStack.sfDefinition = claimedRoute j := by
  unfold claimedRoute
  cases h : getPath j ["body", "method"] with
  | none =>
      simp only [ApiStack.sfDefinition, resolveChoices, evalCond, h, Option.isSome_none,
        Bool.false_eq_true, if_false]
      rfl
  | some v =>
      cases v with
      | null =>
          simp only [ApiStack.sfDefinition, resolveChoices, evalCond, h, Option.isSome_some,
            if_true]
          rfl
      | obj fs =>
          simp only [ApiStack.sfDefinition, resolveChoices, evalCond, h, Option.isSome_some,
            if_true]
          rfl
      | str s =>
          by_cases hg : s = "get"
          · subst hg
            by_cases ho : (getPath j ["body", "orderid"]).isSome
            · simp [ApiStack.sfDefinition, resolveChoices, evalCond, h, ho]
              rfl
            · simp [ApiStack.sfDefinition, resolveChoices, evalCond, h, ho]
              rfl
          · by_cases hp : s = "put"
            · subst hp
              simp [ApiStack.sfDefinition, resolveChoices, evalCond, h]
              rfl
            · simp [ApiStack.sfDefinition, resolveChoices, evalCond, h, hg, hp]
              rfl

/-- C2: each of the four error branches of the API-gateway definition is a
Pass that sets an error field and selects it via outputPath $.error,
followed directly by a putEvents task with exactly one entry on the custom
bus, Source custom.eventbus, DetailType eventDelivery, and the branch's
error description string in the Detail. -/
theorem c2_error_branches_emit_single_event :
    errorRecordThenSingleEvent "ERROR - no method field in input"
      ApiStack.noMethodPass = true ∧
    errorRecordThenSingleEvent "ERROR - unknown method value in input"
      ApiStack.unknownMethodPass = true ∧
    errorRecordThenSingleEvent "ERROR - No OrderID field found in input"
      ApiStack.noOrderIdPass = true ∧
    errorRecordThenSingleEvent "ERROR - OrderID not found in DynamoDB"
      ApiStack.orderNotFoundPass = true :=
  ⟨rfl, rfl, rfl, rfl⟩

/-- C3: the benchmark stack's whole definition is a single Parallel whose
two branches are the LambdaInvoke of the NodeJS get function (result at
$.lambdaGet) and the dynamodb:getItem SDK task with fixed key id=sdkGet,
name=sdkGet (result at $.sdkGet) against the same table; the state machine's
definition is exactly that Parallel, with nothing before or after it. -/
theorem c3_benchmark_parallel (t : String) :
    Bench.sfDefinition t =
      SfState.parallel2 "sfDefinition" (Bench.lambdaGetDdbRecord t)
        (Bench.sdkGetDdbRecord t) SfState.done ∧
    Bench.lambdaGetDdbRecord t =
      SfState.lambdaInvoke "lamdbdaGetToDDB" (Bench.ddbGetLambda t)
        (some "$.lambdaGet") none SfState.done ∧
    (Bench.ddbGetLambda t).entry = "src/lambda/index.ts" ∧
    (Bench.ddbGetLambda t).envDynamoTable = t ∧
    Bench.sdkGetDdbRecord t =
      SfState.task "sdkGetToDDB" "arn:aws:states:::dynamodb:getItem"
        (TaskParams.ddbGetItem t
          [("id", KeyVal.lit "sdkGet"), ("name", KeyVal.lit "sdkGet")])
        (some "$.sdkGet") SfState.done ∧
    (Bench.stateMachineProps t).definition = Bench.sfDefinition t :=
  ⟨rfl, rfl, rfl, rfl, rfl, rfl⟩

/-- C4 counterexample: the API-gateway stack declares an S3 bucket, a
resource kind the claim's enumeration does not contain. -/
theorem c4_counterexample_s3_bucket :
    ("Bucket", ResourceKind.s3Bucket) ∈ ApiStack.resources ∧
    ResourceKind.s3Bucket ∉ claimedResourceKinds := by
  decide

/-- C4 amended: every resource declared by the three stacks is of one of the
claimed kinds, an S3 bucket, or an EventBridge rule; the two benchmark
stacks stay within the original enumeration. -/
theorem c4_amended_resource_kinds :
    (ApiStack.resources.all fun r => decide (r.2 ∈ amendedResourceKinds)) = true ∧
    (Bench.resources.all fun r => decide (r.2 ∈ claimedResourceKinds)) = true ∧
    (PutStack.resources.all fun r => decide (r.2 ∈ claimedResourceKinds)) = true := by
  decide

/-- C5 counterexample: when its DynamoDB get rejects, the get handler with
error handling returns a diagnostic string rather than the call's own
result. -/
theorem c5_counterexample_safe_get_error_path :
    (SafeGetLambda.handler J.null J.null "Table" (fun _ => DdbOutcome.err "boom")).2
      = HandlerResult.message "Unable to read from DynamoDB boom" ∧
    (SafeGetLambda.handler J.null J.null "Table" (fun _ => DdbOutcome.err "boom")).2
      ≠ specCallResult (DdbOutcome.err "boom") :=
  ⟨rfl, by decide⟩

/-- C5 amended: every handler issues exactly one DocumentClient request per
invocation, the get handlers with fixed key id=lambdaGet and the put handler
with fixed item id=lambdaPut, name=lambdaPut, all against the DYNAMODB_TABLE
table; the awaited-promise handlers return the call's data on success and
raise the rejection, the handler with error handling returns the data on
success and a diagnostic string on rejection, and the callback-style get
handler returns undefined. -/
theorem c5_amended_handlers (e c : J) (envTable : String) (ddb : DdbOracle) :
    (XrayGetLambda.handler e c envTable ddb).1
      = [DdbRequest.get envTable [("id", "lambdaGet")]] ∧
    (PlainGetLambda.handler e c envTable ddb).1
      = [DdbRequest.get envTable [("id", "lambdaGet")]] ∧
    (SafeGetLambda.handler e c envTable ddb).1
      = [DdbRequest.get envTable [("id", "lambdaGet")]] ∧
    (PutLambda.handler e c envTable ddb).1
      = [DdbRequest.put envTable [("id", "lambdaPut"), ("name", "lambdaPut")]] ∧
    (XrayGetLambda.handler e c envTable ddb).2
      = okOrRaise (ddb (DdbRequest.get envTable [("id", "lambdaGet")])) ∧
    (PutLambda.handler e c envTable ddb).2
      = okOrRaise (ddb (DdbRequest.put envTable [("id", "lambdaPut"), ("name", "lambdaPut")])) ∧
    (SafeGetLambda.handler e c envTable ddb).2
      = claimedSafeGetResult (ddb (DdbRequest.get envTable [("id", "lambdaGet")])) ∧
    (PlainGetLambda.handler e c envTable ddb).2 = HandlerResult.undef := by
  refine ⟨rfl, rfl, rfl, rfl, ?_, ?_, ?_, rfl⟩
  · cases h : ddb (DdbRequest.get envTable [("id", "lambdaGet")]) with
    | ok d => simp [XrayGetLambda.handler, okOrRaise, h]
    | err s => simp [XrayGetLambda.handler, okOrRaise, h]
  · cases h : ddb (DdbRequest.put envTable [("id", "lambdaPut"), ("name", "lambdaPut")]) with
    | ok d => simp [PutLambda.handler, okOrRaise, h]
    | err s => simp [PutLambda.handler, okOrRaise, h]
  · cases h : ddb (DdbRequest.get envTable [("id", "lambdaGet")]) with
    | ok d => simp [SafeGetLambda.handler, claimedSafeGetResult, h]
    | err s => simp [SafeGetLambda.handler, claimedSafeGetResult, h]

/-- C6: the API-gateway stack declares no Lambda function, and every state
of its definition is a Choice, a Pass, or a service-integration Task for
DynamoDB getItem or EventBridge putEvents. -/
theorem c6_no_lambda_service_integrations_only :
    statesOk isDeclarativeServiceState ApiStack.sfDefinition = true ∧
    (ApiStack.resources.all fun r => decide (r.2 ≠ ResourceKind.lambdaFunction)) = true :=
  ⟨rfl, rfl⟩

/-- C7: every state machine declared in the repository is Express, traced,
logs at level ALL, times out after one minute, and logs to the SfLogGroup
log group declared in its own stack. -/
theorem c7_state_machine_invariants (t1 t2 : String) :
    smOk (Bench.stateMachineProps t1) = true ∧
    smOk ApiStack.stateMachineProps = true ∧
    smOk (PutStack.stateMachineProps t2) = true ∧
    (Bench.stateMachineProps t1).logDestination = "SfLogGroup" ∧
    ("SfLogGroup", ResourceKind.logGroup) ∈ Bench.resources ∧
    ApiStack.stateMachineProps.logDestination = "SfLogGroup" ∧
    ("SfLogGroup", ResourceKind.logGroup) ∈ ApiStack.resources ∧
    (PutStack.stateMachineProps t2).logDestination = "SfLogGroup" ∧
    ("SfLogGroup", ResourceKind.logGroup) ∈ PutStack.resources :=
  ⟨rfl, rfl, rfl, rfl, by decide, rfl, by decide, rfl, by decide⟩

/-- C8: the API-gateway state machine never modifies the DynamoDB table:
every state of its definition is table-safe (its only DynamoDB task is a
getItem), the stack's only table grant to the machine is grantReadData, the
branch taken for method put is the PUT pass (which contains no DynamoDB task
at all), and every execution leaves the table contents unchanged. -/
theorem c8_table_never_modified :
    statesOk tableSafe ApiStack.sfDefinition = true ∧
    ApiStack.tableGrantsToStateMachine = [Grant.readData] ∧
    resolveChoices samplePutInput ApiStack.sfDefinition = ApiStack.putRequestPass ∧
    statesOk tableSafe ApiStack.putRequestPass = true ∧
    (∀ (lamEff : LambdaFn → DdbTable → DdbTable) (pick : String → Nat) (tbl : DdbTable),
      runTable lamEff pick ApiStack.sfDefinition tbl = tbl) := by
  refine ⟨rfl, rfl, rfl, rfl, ?_⟩
  intro lamEff pick tbl
  exact runTable_eq_of_tableSafe lamEff pick ApiStack.sfDefinition rfl tbl

/-- C9: the X-Ray-instrumented get handler with error handling never raises:
it returns the DynamoDB result unchanged on success, and the string Unable
to read from DynamoDB concatenated with the error when the get rejects. -/
theorem c9_safe_get_never_raises (e c : J) (envTable : String) (ddb : DdbOracle) :
    (SafeGetLambda.handler e c envTable ddb).2
      = claimedSafeGetResult (ddb (DdbRequest.get envTable [("id", "lambdaGet")])) ∧
    ∀ s : String, (SafeGetLambda.handler e c envTable ddb).2 ≠ HandlerResult.raised s := by
  constructor
  · cases h : ddb (DdbRequest.get envTable [("id", "lambdaGet")]) with
    | ok d => simp [SafeGetLambda.handler, claimedSafeGetResult, h]
    | err s => simp [SafeGetLambda.handler, claimedSafeGetResult, h]
  · intro s
    cases h : ddb (DdbRequest.get envTable [("id", "lambdaGet")]) with
    | ok d => simp [SafeGetLambda.handler, h]
    | err s2 => simp [SafeGetLambda.handler, h]

/-- C10: the get handlers' behavior is independent of the event and context
arguments: any two invocations with the same environment and the same
DynamoDB oracle issue the identical fixed-key get request and return the
same value. -/
theorem c10_get_handler_input_independent (e1 c1 e2 c2 : J) (envTable : String)
    (ddb : DdbOracle) :
    XrayGetLambda.handler e1 c1 envTable ddb = XrayGetLambda.handler e2 c2 envTable ddb ∧
    SafeGetLambda.handler e1 c1 envTable ddb = SafeGetLambda.handler e2 c2 envTable ddb ∧
    (XrayGetLambda.handler e1 c1 envTable ddb).1
      = [DdbRequest.get envTable [("id", "lambdaGet")]] ∧
    (SafeGetLambda.handler e1 c1 envTable ddb).1
      = [DdbRequest.get envTable [("id", "lambdaGet")]] :=
  ⟨rfl, rfl, rfl, rfl⟩

end CdkApiStepfunction
